import Mathlib

/-!
Shallow embedding of the inkle-ai-tourism aggregation pipeline
(src/agents/orchestrator.py, src/agents/weather_agent.py,
src/agents/places_agent.py).

Python strings are modelled as `List Char`; dict payloads as structures
whose `Option` fields record key presence (`none` models an absent key;
Python additionally distinguishes a stored `None` value, which is
collapsed into `none` as well, reads being assumed well-typed); provider
network calls appear as explicit function parameters; a call that can
raise returns a `PyResult` (normal return or raised exception).  Numeric
payload values are rationals and `showNum` abstracts the Python number
formatting (the claims never depend on the exact digits of a non-zero
number).
-/

set_option maxRecDepth 100000
set_option maxHeartbeats 4000000

namespace InkleTourism

abbrev Str := List Char

def str (s : String) : Str := s.toList

/-- Python str.lower (ASCII portion, which covers every string the pipeline lowers). -/
def pyLower (s : Str) : Str := s.map Char.toLower

/-- Python whitespace set used by str.strip() / str.split() (ASCII part). -/
def isSpacePy (c : Char) : Bool :=
  c == ' ' || c == '\t' || c == '\n' || c == '\r' || c == Char.ofNat 11 || c == Char.ofNat 12

def pyStripLeft (s : Str) : Str := s.dropWhile isSpacePy

def pyStripRight (s : Str) : Str := (s.reverse.dropWhile isSpacePy).reverse

/-- Python str.strip() with no argument. -/
def pyStrip (s : Str) : Str := pyStripRight (pyStripLeft s)

/-- Python str.split() with no argument: split on whitespace runs, dropping empty pieces. -/
def pySplitWs (s : Str) : List Str := (s.splitOnP isSpacePy).filter (fun w => !w.isEmpty)

/-- Python str.title(): upper-case an alphabetic character that does not follow an
alphabetic character, lower-case the other alphabetic characters. -/
def pyTitleAux : Bool → Str → Str
  | _, [] => []
  | prevAlpha, c :: rest =>
    (if c.isAlpha then (if prevAlpha then c.toLower else c.toUpper) else c)
      :: pyTitleAux c.isAlpha rest

def pyTitle (s : Str) : Str := pyTitleAux false s

/-- The Python substring test `needle in hay`: needle is a prefix of some
suffix of hay. -/
def strIn (needle : Str) : Str → Bool
  | [] => needle.isEmpty
  | c :: rest => needle.isPrefixOf (c :: rest) || strIn needle rest

/-! ## Location extractor (orchestrator.py, extract_city_from_query) -/

def cities : List Str :=
  [str "paris", str "london", str "tokyo", str "new york", str "mumbai",
   str "bangalore", str "delhi", str "sydney", str "rome", str "berlin"]

def location_words : List Str := [str "in", str "to", str "for", str "about"]

/-- The check `len(city_candidate) > 2 and ',' not in city_candidate and '.' not in city_candidate`. -/
def goodLocCandidate (w : Str) : Bool :=
  decide (2 < w.length) && !(w.contains ',') && !(w.contains '.')

/-- The scan `for i, word in enumerate(words): if word in location_words and i + 1 < len(words): ...`;
a rejected candidate does not stop the scan. -/
def findLocCandidate : List Str → Option Str
  | [] => none
  | [_] => none
  | w :: next :: rest =>
    if location_words.contains w then
      (if goodLocCandidate next then some next else findLocCandidate (next :: rest))
    else findLocCandidate (next :: rest)

def extract_city_from_query (query : Str) : Str :=
  let query_lower := pyLower query
  match cities.find? (fun c => strIn c query_lower) with
  | some city => pyTitle city
  | none =>
    match findLocCandidate (pySplitWs query_lower) with
    | some cand => pyTitle cand
    | none =>
      if strIn (str "india") query_lower || strIn (str "mumbai") query_lower
          || strIn (str "bangalore") query_lower then str "Mumbai"
      else if strIn (str "uk") query_lower || strIn (str "london") query_lower then
        str "London"
      else str "Paris"

/-! ## Intent classifier (orchestrator.py, determine_intent) -/

def weather_keywords : List Str :=
  [str "weather", str "temperature", str "rain", str "hot", str "cold",
   str "cloudy", str "sunny", str "forecast"]

def places_keywords : List Str :=
  [str "attractions", str "places", str "visit", str "see", str "tour",
   str "sightseeing", str "landmarks", str "museum"]

def needsWeather (q : Str) : Bool := weather_keywords.any (fun k => strIn k (pyLower q))

def needsPlaces (q : Str) : Bool := places_keywords.any (fun k => strIn k (pyLower q))

def determine_intent (q : Str) : Bool × Bool := (needsWeather q, needsPlaces q)

/-- The weather branch guard in orchestrate_tourism_query:
`if needs_weather or not needs_places:  # Weather by default`. -/
def dispatchWeather (q : Str) : Bool := needsWeather q || !needsPlaces q

/-- The places branch guard in orchestrate_tourism_query:
`if needs_places or not needs_weather:  # Places by default`. -/
def dispatchPlaces (q : Str) : Bool := needsPlaces q || !needsWeather q

/-! ## Provider call results -/

/-- A Python call that either returns normally or raises; an exception is
modelled by its message. -/
inductive PyResult (α : Type) where
  | ret (a : α)
  | exn (msg : Str)
deriving DecidableEq

def PyResult.isRet {α : Type} : PyResult α → Bool
  | .ret _ => true
  | .exn _ => false

/-- Rendering of a numeric payload value inside an f-string.  Python would
print floats with a decimal point; the claims only depend on the digits of
the integer `0`, so a non-integral rational is rendered as `num/den`. -/
def showNum (q : ℚ) : Str :=
  if q.den == 1 then (toString q.num).toList
  else (toString q.num).toList ++ str "/" ++ (toString q.den).toList

/-- Rendering of `dict.get(key, "N/A")` for a numeric field. -/
def showOptNum (v : Option ℚ) : Str :=
  match v with
  | some q => showNum q
  | none => str "N/A"

/-! ## Weather payloads (weather_agent.py) -/

/-- The `current` sub-dict of a weather payload, with every key that the
adapter writes or the synthesizer reads.  weather_agent.weather_query writes
only `temperature`, `windspeed` and `weathercode`; the orchestrator function
create_weather_response additionally reads `conditions`, `humidity`,
`wind_speed` and `precipitation`, keys the adapter never produces. -/
structure CurrentW where
  temperature : Option ℚ := none
  windspeed : Option ℚ := none
  weathercode : Option ℚ := none
  conditions : Option Str := none
  humidity : Option ℚ := none
  wind_speed : Option ℚ := none
  precipitation : Option ℚ := none
deriving DecidableEq

structure TodayW where
  high_temp : Option ℚ := none
  low_temp : Option ℚ := none
  precipitation : Option ℚ := none
deriving DecidableEq

structure WeatherBody where
  current : CurrentW := {}
  today : TodayW := {}
deriving DecidableEq

/-- The dict returned by weather_agent.weather_query (the `coordinates` pair
is never read downstream and is omitted). -/
structure WeatherData where
  success : Bool
  location : Str := []
  weather : Option WeatherBody := none
  reason : Option Str := none
deriving DecidableEq

/-- The values weather_query reads off the Open-Meteo response: the
`current_weather` fields and the first entry of each daily array. -/
structure ApiWeather where
  temperature : Option ℚ := none
  windspeed : Option ℚ := none
  weathercode : Option ℚ := none
  temperature_2m_max0 : Option ℚ := none
  temperature_2m_min0 : Option ℚ := none
  precipitation_sum0 : Option ℚ := none
deriving DecidableEq

/-- The success payload weather_agent.weather_query builds.  The `current`
dict receives only `temperature`, `windspeed` and `weathercode` — never
`humidity`, `wind_speed`, `conditions` or `precipitation` — and the
precipitation for today is stored under `today`, not `current`. -/
def weather_query_success (city : Str) (api : ApiWeather) : WeatherData :=
  { success := true
    location := city
    weather := some
      { current := { temperature := api.temperature, windspeed := api.windspeed,
                     weathercode := api.weathercode }
        today := { high_temp := api.temperature_2m_max0, low_temp := api.temperature_2m_min0,
                   precipitation := api.precipitation_sum0 } } }

/-! ## Weather-only response (orchestrator.py, create_weather_response) -/

def coolTipsW : Str :=
  str "❄️ It\x27s cool weather - consider bringing a jacket for outdoor activities.\n🏛️ Good for museums, indoor attractions, and shopping.\n"

def pleasantTipsW : Str :=
  str "🌤️ Pleasant weather - perfect for sightseeing and walking tours.\n🏞️ Ideal conditions for parks and outdoor exploration.\n"

def warmTipsW : Str :=
  str "☀️ Warm weather - light clothing recommended.\n🏖️ Great for outdoor activities and casual exploration.\n"

def rainTipW : Str := str "🌧️ Rain possible - keep an umbrella handy!\n"

/-- The `if temp < 15 / elif temp < 25 / else` travel-tip band of
create_weather_response, with `temp = current.get(\"temperature\", 0)`. -/
def weatherBand (current : CurrentW) : Str :=
  let temp := current.temperature.getD 0
  if temp < 15 then coolTipsW else if temp < 25 then pleasantTipsW else warmTipsW

/-- The travel-tips section: band tips, then the rain note guarded by
`current.get(\"precipitation\", 0) > 0`. -/
def weatherTips (current : CurrentW) : Str :=
  weatherBand current ++ (if 0 < current.precipitation.getD 0 then rainTipW else [])

def create_weather_response (location : Str) (weather_data : WeatherData) : Str :=
  let body := weather_data.weather.getD {}
  let current := body.current
  let today := body.today
  let temp := current.temperature.getD 0
  let conditions := current.conditions.getD (str "Unknown")
  let humidity := current.humidity.getD 0
  pyStrip
    (str "\n" ++ (str "🌤️ **Weather Update for " ++ ((location ++ str "**\n\n📍 **Location**: "
      ++ location ++ str "\n\n🌡️ **Current Conditions**\n- Temperature: " ++ showNum temp
      ++ str "°C" ++ str "\n- Weather: " ++ conditions ++ str "\n- Humidity: " ++ showNum humidity
      ++ str "%" ++ str "\n- Wind: " ++ showNum (current.wind_speed.getD 0) ++ str " km/h"
      ++ str "\n\n📅 **Today\x27s Forecast**\n- High: " ++ showOptNum today.high_temp
      ++ str "°C\n- Low: " ++ showOptNum today.low_temp ++ str "°C\n\n🎒 **Travel Tips**\n"
      ++ weatherTips current
      ++ str "\nWould you like to know about top attractions in " ++ location) ++ str "?")))

/-! ## Attractions and recommendations (places_agent.py) -/

/-- An attraction dict as built by query_overpass_attractions, restricted to
the keys read downstream (id, coordinates, osm_type, phone, rating, tags and
source are never read again and are omitted). -/
structure Attr where
  name : Str
  typ : Str := str "attraction"
  category : Str
  distance_km : ℚ
  opening_hours : Str := str "Unknown"
  website : Str := []
deriving DecidableEq

/-- A recommendation dict as built by generate_travel_recommendations. -/
structure Rec where
  name : Str
  category : Str
  distance : Str
  typ : Str
  why_visit : Str
  best_time : Str
  website : Str
  opening_hours : Str
deriving DecidableEq

/-- places_agent.generate_why_visit: a fixed lookup on the category (the
attraction argument is unused by the source function). -/
def generate_why_visit (category : Str) : Str :=
  if category == str "Landmark" then
    str "Iconic photo opportunity, historical significance, great for sightseeing tours"
  else if category == str "Historical" then
    str "Rich cultural heritage, educational value, perfect for history enthusiasts"
  else if category == str "Museum" then
    str "World-class exhibits, interactive displays, excellent for learning and culture"
  else if category == str "Nature" then
    str "Breathtaking views, peaceful atmosphere, ideal for nature lovers and photographers"
  else if category == str "Park" then
    str "Relaxing green space, perfect for picnics, walking, and casual exploration"
  else if category == str "Religious" then
    str "Spiritual significance, architectural beauty, cultural immersion opportunity"
  else str "Must-see attraction worth visiting"

/-- places_agent.get_best_time. -/
def get_best_time (attraction : Attr) : Str :=
  let opening_hours := pyLower attraction.opening_hours
  if strIn (str "24/7") opening_hours || opening_hours.isEmpty then
    str "Open 24/7 - visit anytime"
  else if strIn (str "sunrise") opening_hours || strIn (str "sunset") opening_hours then
    str "Best at sunrise/sunset for lighting and atmosphere"
  else if strIn (str "museum") (pyLower attraction.category) then
    str "Weekdays 10AM-4PM (avoid weekends and lunch hours)"
  else if strIn (str "historical") (pyLower attraction.category) then
    str "Early morning to avoid crowds (opens 9AM typically)"
  else str "Check opening hours: " ++ opening_hours

/-- One rec of the selection loop in generate_travel_recommendations; the
`category` is the loop variable ranging over priority_categories. -/
def mkRec (category : Str) (a : Attr) : Rec :=
  { name := a.name
    category := category
    distance := showNum a.distance_km ++ str " km away"
    typ := a.typ
    why_visit := generate_why_visit category
    best_time := get_best_time a
    website := a.website
    opening_hours := a.opening_hours }

/-- The category priority order of generate_travel_recommendations. -/
def priority_categories : List Str :=
  [str "Landmark", str "Historical", str "Museum", str "Nature", str "Park", str "Religious"]

/-- Python `categories[category][:2]` turned into recs: the attractions carrying this
category, in list order, capped at two. -/
def categoryBlock (attractions : List Attr) (category : Str) : List Rec :=
  ((attractions.filter (fun a => a.category == category)).take 2).map (mkRec category)

/-- The selection loop of generate_travel_recommendations followed by the
`recommendations[:5]` cap. -/
def selectRecs (attractions : List Attr) : List Rec :=
  ((priority_categories.map (categoryBlock attractions)).flatten).take 5

/-- The two shapes query_overpass_attractions actually returns: a processed,
distance-sorted list capped at 5, or the singleton list holding an error dict
(keys `error` and `message`). -/
inductive OverpassOut where
  | atts (l : List Attr)
  | apiError (error message : Str)
deriving DecidableEq

def overpassLen : OverpassOut → Nat
  | .atts l => l.length
  | .apiError _ _ => 1

/-- The dict generate_travel_recommendations returns; a `none` field is a key
the producing branch did not write (`by_category` and `source` are never read
downstream and are omitted). -/
structure RecDict where
  message : Option Str := none
  suggestions : List Str := []
  recommendations : Option (List Rec) := none
  location : Option Str := none
  total_found : Option Nat := none
  recommended : Option (List Rec) := none
  travel_tips : Option (List Str) := none
deriving DecidableEq

def places_travel_tips : List Str :=
  [str "Most attractions are free or low-cost entry",
   str "Check opening hours - many close on Mondays",
   str "Public transport available near most sites",
   str "Download offline maps for better navigation"]

/-- The early-return dict of generate_travel_recommendations.  Note it writes
the key `recommendations`, not `recommended`, and writes no `travel_tips`. -/
def recFallback (location : Str) : RecDict :=
  { message := some (str "No tourist attractions found for \x27" ++ location
      ++ str "\x27. Try a more popular destination.")
    suggestions := [str "Major cities like Paris, New York, Tokyo have extensive data",
                    str "Try: \x27London, UK\x27, \x27Rome, Italy\x27, \x27Sydney, Australia\x27"]
    recommendations := some [] }

/-- places_agent.generate_travel_recommendations.  The guard is
`if not attractions or "error" in attractions[0]`: an empty list, or a first
element that is the error dict (which has the key `error`). -/
def generate_travel_recommendations (out : OverpassOut) (location : Str) : RecDict :=
  match out with
  | .apiError _ _ => recFallback location
  | .atts [] => recFallback location
  | .atts l =>
    { location := some location
      total_found := some l.length
      recommended := some (selectRecs l)
      travel_tips := some places_travel_tips }

/-- The `attractions` sub-dict of a places_query success payload. -/
structure AttrBlock where
  total_available : Nat := 0
  recommended_count : Nat := 0
  top_recommendations : List Rec := []
  travel_tips : List Str := []
deriving DecidableEq

/-- The dict returned by places_agent.places_query.  `last_updated` carries
`datetime.now()` from the `technical` sub-dict; `by_category`, `coordinates`
and the static `technical` strings are never read downstream and are
omitted. -/
structure PlacesData where
  success : Bool
  location : Str := []
  error : Option Str := none
  suggestions : List Str := []
  found_attractions : Option Nat := none
  attractions : Option AttrBlock := none
  last_updated : Str := []
deriving DecidableEq

/-- places_agent.places_query with its two network calls (Nominatim geocoding,
Overpass query) passed in as data and the wall clock passed as `now`.

Two source remarks reproduced here: `if "error" in attractions:` asks whether
the *string* "error" is an element of a list of dicts, which is always false,
so that error return is dead code; and the fallback dict of
generate_travel_recommendations carries the key `recommendations` rather than
`recommended`, so `recommendations["recommended"]` raises KeyError whenever
the fallback was taken. -/
def places_query (location : Str) (coords : Option (ℚ × ℚ)) (overpass : OverpassOut)
    (now : Str) : PyResult PlacesData :=
  match coords with
  | none =>
    .ret { success := false
           error := some (str "The AI doesn\x27t know this place \x27" ++ location
             ++ str "\x27 exists. Please check the spelling.")
           suggestions :=
             [str "Try: \x27Bangalore, India\x27, \x27London, UK\x27, \x27Tokyo, Japan\x27, \x27Paris, France\x27",
              str "Include country for better accuracy: \x27Mumbai, India\x27"]
           found_attractions := some 0 }
  | some _ =>
    let recommendations := generate_travel_recommendations overpass location
    match recommendations.recommended with
    | none => .exn (str "KeyError: recommended")
    | some recs =>
      match recommendations.travel_tips with
      | none => .exn (str "KeyError: travel_tips")
      | some tips =>
        .ret { success := true
               location := location
               attractions := some
                 { total_available := overpassLen overpass
                   recommended_count := recs.length
                   top_recommendations := recs
                   travel_tips := tips }
               last_updated := now }

/-! ## Places-only response (orchestrator.py, create_places_response) -/

def placesLine (p : Nat × Rec) : Str :=
  (toString p.1).toList ++ str ". **" ++ p.2.name ++ str "** (" ++ p.2.distance
    ++ str ")\n   📍 " ++ p.2.category ++ str "\n"
    ++ (if !p.2.website.isEmpty then str "   🌐 " ++ p.2.website ++ str "\n" else [])
    ++ str "\n"

def create_places_response (location : Str) (places_data : PlacesData) : Str :=
  let attractions := (places_data.attractions.getD {}).top_recommendations
  if attractions.isEmpty then
    pyStrip (str "\n" ++ str "🗺️ **Tourist Attractions in " ++ location
      ++ str "**\n\nI searched for popular attractions in " ++ location
      ++ str ", but couldn\x27t find specific tourist sites in the current database.\n\n**Popular "
      ++ location
      ++ str " Activities:**\n• Explore local markets and street food\n• Visit cultural landmarks and temples  \n• Check out modern architecture and shopping areas\n• Try traditional local cuisine\n\n**Tips:**\n• "
      ++ location
      ++ str " has rich cultural heritage worth exploring\n• Consider using local transport or walking tours\n• Many attractions are free or low-cost\n\nWould you like current weather information for "
      ++ location ++ str " to help with your travel planning?\n")
  else
    pyStrip (str "\n" ++ str "🗺️ **Top Attractions in " ++ location ++ str "**\n\nI found "
      ++ (toString attractions.length).toList
      ++ str " attractions for your visit! Here are the top recommendations:\n\n"
      ++ (((attractions.take 5).enumFrom 1).map placesLine).flatten
      ++ str "\n**Travel Tips for " ++ location
      ++ str ":**\n• Most attractions are within walking distance of each other\n• Consider getting a local transport pass for your visit to "
      ++ location ++ str "\n• Check opening hours - many places close early\n"
      ++ str "\nWould you like to know the current weather in " ++ location ++ str "?")

/-! ## Combined response (orchestrator.py, create_combined_response) -/

/-- Python `enumerate(attractions[:5], 1)`. -/
def combinedEntries (recs : List Rec) : List (Nat × Rec) := (recs.take 5).enumFrom 1

/-- The hint by 1-based position: Open daily when the index is at most 3,
Check hours later — a function of the position only, never of the
attraction data. -/
def hintFor (i : Nat) : Str := if i ≤ 3 then str "Open daily" else str "Check hours"

def combinedLine (p : Nat × Rec) : Str :=
  (toString p.1).toList ++ str ". **" ++ p.2.name ++ str "** (" ++ p.2.distance
    ++ str ")\n   📍 " ++ p.2.category ++ str " attraction\n   🕐 " ++ hintFor p.1 ++ str "\n\n"

def combinedAttractionSection (recs : List Rec) : Str :=
  if recs.isEmpty then
    -- the Python source line is a plain string, not an f-string, so the
    -- braced location placeholder appears literally in the output
    str "I found general attractions for {location} - would you like specific recommendations?\n\n"
  else ((combinedEntries recs).map combinedLine).flatten

def combinedBand (current : CurrentW) : Str :=
  let temp := current.temperature.getD 0
  if temp < 15 then
    str "❄️ **Cool Weather**: Dress in layers, bring jacket for evenings\n🏛️ **Recommended**: Focus on indoor attractions and museums today\n"
  else if temp < 25 then
    str "🌤️ **Pleasant Weather**: Perfect for sightseeing and walking tours\n🏞️ **Recommended**: Explore outdoor landmarks and parks\n"
  else
    str "☀️ **Warm Weather**: Light clothing, sunscreen recommended\n🏖️ **Recommended**: Great for walking tours and outdoor activities\n"

def combinedRain (current : CurrentW) : Str :=
  if 0 < current.precipitation.getD 0 then
    str "🌧️ **Rain Possible**: Keep umbrella or rain jacket handy\n🏠 **Backup Plan**: Indoor attractions ready if it rains\n"
  else []

def combinedPlan (location : Str) (current : CurrentW) : Str :=
  let temp := current.temperature.getD 0
  str "\n**📋 Suggested Plan for " ++ location ++ str ":**\n• **Morning**: Visit "
    ++ (if temp < 15 then str "indoor attractions" else str "major landmarks")
    ++ str "\n• **Afternoon**: Explore " ++ location ++ str " by "
    ++ (if temp < 25 then str "foot" else str "public transport")
    ++ str "\n• **Evening**: Enjoy "
    ++ (if temp < 15 then str "indoor dining" else str "outdoor restaurants") ++ str "\n"

def create_combined_response (location : Str) (weather_data : WeatherData)
    (places_data : PlacesData) : Str :=
  let body := weather_data.weather.getD {}
  let current := body.current
  let today := body.today
  let attractions := (places_data.attractions.getD {}).top_recommendations
  let temp := current.temperature.getD 0
  let conditions := current.conditions.getD (str "Unknown")
  pyStrip (str "\n" ++ str "✈️ **Complete Travel Guide for " ++ location
    ++ str "**\n\n📍 **Your Destination**: " ++ location ++ str "\n🌤️ **Current Weather**: "
    ++ showNum temp ++ str "°C, " ++ conditions ++ str "\n📅 **Today\x27s Forecast**: High "
    ++ showOptNum today.high_temp ++ str "°C, Low " ++ showOptNum today.low_temp
    ++ str "°C\n\n🎯 **Top 5 Attractions in " ++ location ++ str ":**\n\n"
    ++ combinedAttractionSection attractions
    ++ str "\n**🎒 Weather-Based Travel Tips for " ++ location ++ str ":**\n"
    ++ combinedBand current ++ combinedRain current
    ++ combinedPlan location current
    ++ str "\n**✨ Your " ++ location ++ str " adventure awaits!**")

/-! ## Error response (orchestrator.py, create_error_response) -/

/-- The loop `for error in errors[:2]: response += bullet(error)`. -/
def bulletLines (errors : List Str) : Str :=
  ((errors.take 2).map (fun e => str "• " ++ e ++ str "\n")).flatten

/-- create_error_response.  `errors[0]` on an empty list raises IndexError,
modelled as an exception result. -/
def create_error_response (_query location : Str) (errors : List Str) : PyResult Str :=
  match errors with
  | [] => .exn (str "IndexError: list index out of range")
  | e0 :: _ =>
    let body :=
      if strIn (str "unknown location") (pyLower e0) || location.isEmpty then
        str "I\x27m sorry, I don\x27t know the place \x27" ++ location
          ++ str "\x27. \n\nPlease try a major city like:\n• Paris, France\n• London, UK\n• Tokyo, Japan\n• New York, USA\n• Mumbai, India\n\n"
      else
        str "I encountered technical issues while searching for " ++ location ++ str ":\n"
          ++ bulletLines errors ++ str "\n"
    .ret (pyStrip (str "🚫 **Travel Assistant Error**\n\n" ++ (body
      ++ str "Try again with a different city or check your internet connection!")))

/-! ## Orchestrator entry point (orchestrator.py, orchestrate_tourism_query) -/

def weatherUnavailableMsg (location : Str) : Str := str "Weather data unavailable for " ++ location

def weatherServiceErrorMsg (e : Str) : Str := str "Weather service error: " ++ e

def placesUnavailableMsg (location : Str) : Str := str "Attractions data unavailable for " ++ location

def placesServiceErrorMsg (e : Str) : Str := str "Places service error: " ++ e

/-- Step 3, weather branch: guarded by dispatchWeather; a raising call is
caught and recorded, an unsuccessful payload is recorded. -/
def weatherStep (q location : Str) (wp : Str → PyResult WeatherData) :
    Option WeatherData × List Str :=
  if dispatchWeather q then
    match wp location with
    | .ret d => (some d, if d.success then [] else [weatherUnavailableMsg location])
    | .exn e => (none, [weatherServiceErrorMsg e])
  else (none, [])

/-- Step 3, places branch: guarded by dispatchPlaces. -/
def placesStep (q location : Str) (pp : Str → PyResult PlacesData) :
    Option PlacesData × List Str :=
  if dispatchPlaces q then
    match pp location with
    | .ret d => (some d, if d.success then [] else [placesUnavailableMsg location])
    | .exn e => (none, [placesServiceErrorMsg e])
  else (none, [])

/-- The error_messages list as accumulated by step 3. -/
def gatheredErrors (q : Str) (wp : Str → PyResult WeatherData)
    (pp : Str → PyResult PlacesData) : List Str :=
  (weatherStep q (extract_city_from_query q) wp).2
    ++ (placesStep q (extract_city_from_query q) pp).2

/-- Truthiness test `weather_data and weather_data.get("success")` (a returned dict is
non-empty, hence truthy). -/
def wSuccess : Option WeatherData → Bool
  | some d => d.success
  | none => false

def pSuccess : Option PlacesData → Bool
  | some d => d.success
  | none => false

/-- The dict orchestrate_tourism_query returns, restricted to the keys the
claims mention; the fields of the `technical` sub-dict are `none` on the
except branch, which does not write them (and the wall-clock timestamp of
`technical` is not modelled). -/
structure OrchResult where
  status : Str
  response : Str
  location : Option Str := none
  weather_called : Option Bool := none
  places_called : Option Bool := none
deriving DecidableEq

/-- The message of the outer `except` handler of orchestrate_tourism_query. -/
def orchGenericError (q : Str) : Str :=
  str "I\x27m having trouble processing your request right now. The location \x27"
    ++ extract_city_from_query q
    ++ str "\x27 might not be recognized. Please try a major city like Paris, London, or Tokyo."

/-- orchestrate_tourism_query with the two provider calls passed in as
functions.  The outer try/except is modelled by catching a raising step; in
the embedded well-typed pipeline the only raise that can reach it is the
`errors[0]` IndexError inside create_error_response. -/
def orchestrate (user_query : Str) (wp : Str → PyResult WeatherData)
    (pp : Str → PyResult PlacesData) : OrchResult :=
  let location := extract_city_from_query user_query
  let ws := weatherStep user_query location wp
  let ps := placesStep user_query location pp
  let weather_data := ws.1
  let places_data := ps.1
  let error_messages := ws.2 ++ ps.2
  let responseR : PyResult Str :=
    if wSuccess weather_data && pSuccess places_data then
      .ret (create_combined_response location (weather_data.getD { success := false })
        (places_data.getD { success := false }))
    else if wSuccess weather_data then
      .ret (create_weather_response location (weather_data.getD { success := false }))
    else if pSuccess places_data then
      .ret (create_places_response location (places_data.getD { success := false }))
    else create_error_response user_query location error_messages
  match responseR with
  | .ret response =>
    { status := str "success"
      response := response
      location := some location
      weather_called := some weather_data.isSome
      places_called := some places_data.isSome }
  | .exn _ => { status := str "error", response := orchGenericError user_query }

/-! ## Auxiliary definitions used by the statements -/

/-- Position of a category inside the fixed priority order. -/
def priorityIdx (c : Str) : Nat := priority_categories.indexOf c

/-- A weather provider whose call returns an unsuccessful payload. -/
def wpFailEx : Str → PyResult WeatherData := fun loc => .ret { success := false, location := loc }

/-- A places provider whose call returns an unsuccessful payload. -/
def ppFailEx : Str → PyResult PlacesData := fun loc => .ret { success := false, location := loc }

/-- A weather provider whose call raises with a message that mentions an
unknown location. -/
def wpUnkEx : Str → PyResult WeatherData := fun _ => .exn (str "unknown location data")

/-- A places provider over a resolvable location for which Overpass finds an
empty attraction list. -/
def ppKeyEx : Str → PyResult PlacesData :=
  fun loc => places_query loc (some (48, 2)) (OverpassOut.atts []) (str "2025-01-01 00:00:00")

/-- The weather scenario of the spec: temperature 12.0, precipitation 0.4. -/
def exApi : ApiWeather :=
  { temperature := some 12
    windspeed := some 5
    weathercode := some 1
    temperature_2m_max0 := some 14
    temperature_2m_min0 := some 8
    precipitation_sum0 := some (2/5) }

/-! ## Infrastructure lemmas -/

theorem headD_append (L Y : Str) (d : Char) (h : L ≠ []) : (L ++ Y).headD d = L.headD d := by
  cases L with
  | nil => exact absurd rfl h
  | cons c t => rfl

theorem append_ne_nil_left {L : Str} (Y : Str) (h : L ≠ []) : L ++ Y ≠ [] := by
  intro hc
  exact h (List.append_eq_nil.mp hc).1

theorem ne_nil_append_right (A : Str) {B : Str} (h : B ≠ []) : A ++ B ≠ [] := by
  intro hc
  exact h (List.append_eq_nil.mp hc).2

/-- The last character of an appended string is the last character of its
right part, when that part is non-empty. -/
theorem endsOk_append (A B : Str) (hB : B ≠ [])
    (h : isSpacePy (B.reverse.headD ' ') = false) :
    isSpacePy ((A ++ B).reverse.headD ' ') = false := by
  rw [List.reverse_append]
  rw [headD_append _ _ _ (by simpa using hB)]
  exact h

theorem pyStripLeft_eq_self (s : Str) (h : isSpacePy (s.headD ' ') = false) :
    pyStripLeft s = s := by
  cases s with
  | nil => rfl
  | cons c t =>
    rw [List.headD_cons] at h
    rw [pyStripLeft, List.dropWhile_cons, h]
    simp

theorem pyStripRight_eq_self (s : Str) (h : isSpacePy (s.reverse.headD ' ') = false) :
    pyStripRight s = s := by
  unfold pyStripRight
  cases hr : s.reverse with
  | nil =>
    simpa using (List.reverse_eq_nil_iff.mp hr).symm
  | cons c t =>
    rw [hr] at h
    rw [List.headD_cons] at h
    rw [List.dropWhile_cons, h]
    simp only [Bool.false_eq_true, if_false]
    have := congrArg List.reverse hr
    rw [List.reverse_reverse] at this
    exact this.symm

theorem pyStrip_eq_self (s : Str) (h1 : isSpacePy (s.headD ' ') = false)
    (h2 : isSpacePy (s.reverse.headD ' ') = false) : pyStrip s = s := by
  rw [pyStrip, pyStripLeft_eq_self s h1, pyStripRight_eq_self s h2]

theorem pyStrip_newline (X : Str) (h1 : isSpacePy (X.headD ' ') = false)
    (h2 : isSpacePy (X.reverse.headD ' ') = false) : pyStrip (str "\n" ++ X) = X := by
  have hx : str "\n" ++ X = '\n' :: X := rfl
  rw [hx, pyStrip, pyStripLeft, List.dropWhile_cons]
  have hsp : isSpacePy '\n' = true := rfl
  rw [hsp]
  simp only [if_true]
  rw [← pyStripLeft, pyStripLeft_eq_self X h1, pyStripRight_eq_self X h2]

/-- Growing an occurrence to a larger string. -/
theorem substr_context {l M R : Str} (h : l <:+: M) (X Y : Str) (hR : X ++ M ++ Y = R) :
    l <:+: R := by
  obtain ⟨s, t, hst⟩ := h
  refine ⟨X ++ s, t ++ Y, ?_⟩
  rw [← hR, ← hst]
  simp [List.append_assoc]

theorem length_pyTitleAux (b : Bool) (s : Str) : (pyTitleAux b s).length = s.length := by
  induction s generalizing b with
  | nil => rfl
  | cons c t ih => simp [pyTitleAux, ih]

theorem pyTitle_ne_nil {s : Str} (h : s ≠ []) : pyTitle s ≠ [] := by
  intro hc
  apply h
  have hl := congrArg List.length hc
  rw [pyTitle, length_pyTitleAux] at hl
  exact List.length_eq_zero.mp hl

theorem findLocCandidate_good (ws : List Str) :
    ∀ w, findLocCandidate ws = some w → goodLocCandidate w = true := by
  induction ws with
  | nil => intro w h; simp [findLocCandidate] at h
  | cons x rest ih =>
    intro w h
    rcases rest with _ | ⟨nxt, r2⟩
    · simp [findLocCandidate] at h
    · rw [findLocCandidate] at h
      by_cases hx : x ∈ location_words
      · by_cases hg : goodLocCandidate nxt = true
        · simp [hx, hg] at h
          exact h ▸ hg
        · simp [hx, hg] at h
          exact ih w h
      · simp [hx] at h
        exact ih w h

theorem extract_nonempty (q : Str) : extract_city_from_query q ≠ [] := by
  unfold extract_city_from_query
  cases hf : cities.find? (fun c => strIn c (pyLower q)) with
  | some city =>
    simp only [hf]
    have hmem := List.mem_of_find?_eq_some hf
    have hcity : city ≠ [] := by
      have hall : ∀ c ∈ cities, c ≠ [] := by decide
      exact hall city hmem
    exact pyTitle_ne_nil hcity
  | none =>
    simp only [hf]
    cases hc : findLocCandidate (pySplitWs (pyLower q)) with
    | some cand =>
      simp only [hc]
      have hg := findLocCandidate_good _ _ hc
      have hcand : cand ≠ [] := by
        intro hnil
        rw [hnil] at hg
        exact absurd hg (by decide)
      exact pyTitle_ne_nil hcand
    | none =>
      simp only [hc]
      split
      · decide
      · split
        · decide
        · decide

/-! ## Claim theorems -/

/-- C4: the aggregator dispatches the weather provider exactly when
wantsWeather is true or wantsPlaces is false, and the places provider exactly
when wantsPlaces is true or wantsWeather is false; at least one provider is
dispatched for every query, when neither keyword set matches both are
dispatched, and an undispatched provider is never called and records no
error. -/
theorem c4_dispatch_rule (q : Str) :
    dispatchWeather q = (needsWeather q || !needsPlaces q)
  ∧ dispatchPlaces q = (needsPlaces q || !needsWeather q)
  ∧ (dispatchWeather q || dispatchPlaces q) = true
  ∧ (needsWeather q = false → needsPlaces q = false →
      dispatchWeather q = true ∧ dispatchPlaces q = true)
  ∧ (dispatchWeather q = false → ∀ loc wp, weatherStep q loc wp = (none, []))
  ∧ (dispatchPlaces q = false → ∀ loc pp, placesStep q loc pp = (none, [])) := by
  refine ⟨rfl, rfl, ?_, ?_, ?_, ?_⟩
  · cases hW : needsWeather q <;> cases hP : needsPlaces q <;>
      simp [dispatchWeather, dispatchPlaces, hW, hP]
  · intro h1 h2
    simp [dispatchWeather, dispatchPlaces, h1, h2]
  · intro h loc wp
    simp [weatherStep, h]
  · intro h loc pp
    simp [placesStep, h]

/-- Witness for C4 at concrete queries: a query matching neither keyword set
dispatches both providers, and the provider not selected by the rule is not
called. -/
theorem c4_dispatch_rule_witness :
    (dispatchWeather (str "plan a nice trip") = true
      ∧ dispatchPlaces (str "plan a nice trip") = true)
  ∧ weatherStep (str "attractions please") (str "Paris") (fun _ => PyResult.exn []) = (none, [])
  ∧ placesStep (str "weather please") (str "Paris") (fun _ => PyResult.exn []) = (none, []) :=
  ⟨(c4_dispatch_rule (str "plan a nice trip")).2.2.2.1 (by decide) (by decide),
   (c4_dispatch_rule (str "attractions please")).2.2.2.2.1 (by decide) (str "Paris") _,
   (c4_dispatch_rule (str "weather please")).2.2.2.2.2 (by decide) (str "Paris") _⟩

/-- C5: the travel-tip band of the weather narrative is a total function of
the temperature read with default 0: below 15 the cool band, from 15 up to
but excluding 25 the pleasant band, from 25 on the warm band, and a missing
temperature falls into the cool band. -/
theorem c5_temperature_bands (current : CurrentW) :
    (current.temperature = none → weatherBand current = coolTipsW)
  ∧ (∀ t : ℚ, current.temperature = some t → t < 15 → weatherBand current = coolTipsW)
  ∧ (∀ t : ℚ, current.temperature = some t → 15 ≤ t → t < 25 →
      weatherBand current = pleasantTipsW)
  ∧ (∀ t : ℚ, current.temperature = some t → 25 ≤ t → weatherBand current = warmTipsW) := by
  refine ⟨?_, ?_, ?_, ?_⟩
  · intro h
    simp [weatherBand, h]
  · intro t h ht
    simp [weatherBand, h, ht]
  · intro t h h1 h2
    simp [weatherBand, h, h2, not_lt.mpr h1]
  · intro t h h1
    have h2 : ¬t < 15 := not_lt.mpr (le_trans (by norm_num) h1)
    have h3 : ¬t < 25 := not_lt.mpr (le_trans (by norm_num) h1)
    simp [weatherBand, h, h2, h3]

/-- Witness for C5 at the four band inputs. -/
theorem c5_temperature_bands_witness :
    weatherBand { temperature := none } = coolTipsW
  ∧ weatherBand { temperature := some 12 } = coolTipsW
  ∧ weatherBand { temperature := some 20 } = pleasantTipsW
  ∧ weatherBand { temperature := some 30 } = warmTipsW :=
  ⟨(c5_temperature_bands { temperature := none }).1 rfl,
   (c5_temperature_bands { temperature := some 12 }).2.1 12 rfl (by norm_num),
   (c5_temperature_bands { temperature := some 20 }).2.2.1 20 rfl (by norm_num) (by norm_num),
   (c5_temperature_bands { temperature := some 30 }).2.2.2 30 rfl (by norm_num)⟩

/-- C6: whenever the lower-cased query contains a reference-set city as a
substring, extract_city_from_query returns the first such city in the fixed
reference iteration order (`cities.find?`), title-cased — regardless of where
in the query the city occurs. -/
theorem c6_extract_city_first_match (q c : Str) (hc : c ∈ cities)
    (hin : strIn c (pyLower q) = true) :
    ∃ c0, cities.find? (fun x => strIn x (pyLower q)) = some c0
      ∧ c0 ∈ cities ∧ strIn c0 (pyLower q) = true
      ∧ extract_city_from_query q = pyTitle c0 := by
  have hsome : (cities.find? (fun x => strIn x (pyLower q))).isSome :=
    List.find?_isSome.mpr ⟨c, hc, hin⟩
  obtain ⟨c0, hc0⟩ := Option.isSome_iff_exists.mp hsome
  have hmem : c0 ∈ cities := List.mem_of_find?_eq_some hc0
  have hp0 := List.find?_some hc0
  have hp : strIn c0 (pyLower q) = true := hp0
  refine ⟨c0, hc0, hmem, hp, ?_⟩
  unfold extract_city_from_query
  simp only [hc0]

/-- Witness for C6: "i love new york a lot" yields "New York" even though
earlier cities of the reference set do not occur. -/
theorem c6_extract_city_first_match_witness :
    ∃ c0, cities.find? (fun x => strIn x (pyLower (str "i love new york a lot"))) = some c0
      ∧ c0 ∈ cities ∧ strIn c0 (pyLower (str "i love new york a lot")) = true
      ∧ extract_city_from_query (str "i love new york a lot") = pyTitle c0 :=
  c6_extract_city_first_match (str "i love new york a lot") (str "new york")
    (by decide) (by decide)

/-- C8: the three synthesizers are deterministic — identical inputs give
byte-identical narratives — and the narrative does not depend on the
timestamp carried inside the places payload (`technical.last_updated`, the
only wall-clock value a synthesizer input contains). -/
theorem c8_synthesis_deterministic (location : Str) (wd : WeatherData) (pd : PlacesData)
    (t1 t2 : Str) :
    create_weather_response location wd = create_weather_response location wd
  ∧ create_places_response location { pd with last_updated := t1 }
      = create_places_response location { pd with last_updated := t2 }
  ∧ create_combined_response location wd { pd with last_updated := t1 }
      = create_combined_response location wd { pd with last_updated := t2 } :=
  ⟨rfl, rfl, rfl⟩

/-! ## Selection lemmas for the combined listing -/

theorem categoryBlock_category (atts : List Attr) (c : Str) :
    ∀ r ∈ categoryBlock atts c, r.category = c := by
  intro r hr
  rw [categoryBlock] at hr
  obtain ⟨a, _, rfl⟩ := List.mem_map.mp hr
  rfl

theorem categoryBlock_length_le (atts : List Attr) (c : Str) :
    (categoryBlock atts c).length ≤ 2 := by
  rw [categoryBlock, List.length_map]
  exact List.length_take_le 2 _

theorem countP_categoryBlock_ne (atts : List Attr) {c1 c : Str} (h : c1 ≠ c) :
    (categoryBlock atts c1).countP (fun r => r.category == c) = 0 := by
  rw [List.countP_eq_zero]
  intro r hr
  rw [categoryBlock_category atts c1 r hr]
  simp [h]

theorem countP_selectRecs_le (atts : List Attr) (c : Str) :
    (selectRecs atts).countP (fun r => r.category == c) ≤ 2 := by
  have hsub := List.Sublist.countP_le (fun r => r.category == c)
    (List.take_sublist 5 ((priority_categories.map (categoryBlock atts)).flatten))
  refine le_trans hsub ?_
  rw [List.countP_flatten]
  have key : ∀ cats : List Str, cats.Pairwise (fun a b => a ≠ b) →
      ((cats.map (categoryBlock atts)).map (List.countP (fun r => r.category == c))).sum ≤ 2 := by
    intro cats hnd
    induction cats with
    | nil => simp
    | cons c1 rest ih =>
      rcases hnd with _ | ⟨hne, hnd'⟩
      simp only [List.map_cons, List.sum_cons]
      by_cases hc : c1 = c
      · subst hc
        have h1 : (categoryBlock atts c1).countP (fun r => r.category == c1) ≤ 2 :=
          le_trans (List.countP_le_length _) (categoryBlock_length_le atts c1)
        have h2 : ((rest.map (categoryBlock atts)).map
            (List.countP (fun r => r.category == c1))).sum = 0 := by
          apply List.sum_eq_zero
          intro x hx
          rw [List.map_map] at hx
          obtain ⟨c2, hc2, rfl⟩ := List.mem_map.mp hx
          exact countP_categoryBlock_ne atts (fun he => hne c2 hc2 he.symm)
        omega
      · rw [countP_categoryBlock_ne atts hc]
        simpa using ih hnd'
  exact key priority_categories (by decide)

theorem selectRecs_priority_sorted (atts : List Attr) :
    (selectRecs atts).Pairwise
      (fun r1 r2 => priorityIdx r1.category ≤ priorityIdx r2.category) := by
  apply List.Pairwise.sublist
    (List.take_sublist 5 ((priority_categories.map (categoryBlock atts)).flatten))
  rw [List.pairwise_flatten]
  constructor
  · intro l hl
    obtain ⟨cat, _, rfl⟩ := List.mem_map.mp hl
    apply List.pairwise_of_forall_mem_list
    intro a ha b hb
    rw [categoryBlock_category atts cat a ha, categoryBlock_category atts cat b hb]
  · rw [List.pairwise_map]
    have hpri : priority_categories.Pairwise (fun c1 c2 => priorityIdx c1 ≤ priorityIdx c2) := by
      decide
    refine hpri.imp ?_
    intro c1 c2 h x hx y hy
    rw [categoryBlock_category atts c1 x hx, categoryBlock_category atts c2 y hy]
    exact h

theorem combinedEntries_hints (recs : List Rec) :
    (combinedEntries recs).map (fun p => hintFor p.1)
      = (List.range (recs.take 5).length).map
          (fun k => if k < 3 then str "Open daily" else str "Check hours") := by
  unfold combinedEntries
  have h1 : (List.enumFrom 1 (recs.take 5)).map (fun p => hintFor p.1)
      = ((List.enumFrom 1 (recs.take 5)).map Prod.fst).map hintFor := by
    rw [List.map_map]
    rfl
  rw [h1, List.enumFrom_map_fst, List.range'_eq_map_range, List.map_map]
  apply List.map_congr_left
  intro k _
  show hintFor (1 + k) = if k < 3 then str "Open daily" else str "Check hours"
  rcases Nat.lt_or_ge k 3 with hk | hk
  · rw [if_pos hk, hintFor, if_pos (by omega)]
  · rw [if_neg (by omega), hintFor, if_neg (by omega)]

/-- C7: the combined narrative listing selects at most 2 attractions per
category, in the fixed priority order Landmark, Historical, Museum, Nature,
Park, Religious, capped at 5 overall; and the rendered entries annotate the
first 3 listed attractions with "Open daily" and every later one with "Check
hours", independently of the opening-hours data of the attraction. -/
theorem c7_combined_listing (atts : List Attr) (recs : List Rec) :
    (selectRecs atts).length ≤ 5
  ∧ (∀ c : Str, (selectRecs atts).countP (fun r => r.category == c) ≤ 2)
  ∧ (selectRecs atts).Pairwise
      (fun r1 r2 => priorityIdx r1.category ≤ priorityIdx r2.category)
  ∧ (combinedEntries recs).map (fun p => hintFor p.1)
      = (List.range (recs.take 5).length).map
          (fun k => if k < 3 then str "Open daily" else str "Check hours")
  ∧ (∀ (i : Nat) (r : Rec) (oh : Str),
      combinedLine (i, { r with opening_hours := oh }) = combinedLine (i, r)) :=
  ⟨List.length_take_le 5 _, fun c => countP_selectRecs_le atts c,
   selectRecs_priority_sorted atts, combinedEntries_hints recs, fun _ _ _ => rfl⟩

/-! ## Orchestrator error-branch lemmas -/

theorem weatherStep_failed_ne_nil (q loc : Str) (wp : Str → PyResult WeatherData)
    (hd : dispatchWeather q = true) (hs : wSuccess (weatherStep q loc wp).1 = false) :
    (weatherStep q loc wp).2 ≠ [] := by
  unfold weatherStep at hs ⊢
  rw [hd] at hs ⊢
  rw [if_pos rfl] at hs ⊢
  cases hw : wp loc with
  | ret d =>
    rw [hw] at hs
    show (if d.success = true then [] else [weatherUnavailableMsg loc]) ≠ []
    have hs' : d.success = false := by
      cases hsucc : d.success with
      | true =>
        have hfalse : wSuccess (some d) = false := hs
        rw [wSuccess] at hfalse
        rw [hsucc] at hfalse
        exact absurd hfalse (by simp)
      | false => rfl
    simp [hs']
  | exn e =>
    show [weatherServiceErrorMsg e] ≠ []
    simp

theorem placesStep_failed_ne_nil (q loc : Str) (pp : Str → PyResult PlacesData)
    (hd : dispatchPlaces q = true) (hs : pSuccess (placesStep q loc pp).1 = false) :
    (placesStep q loc pp).2 ≠ [] := by
  unfold placesStep at hs ⊢
  rw [hd] at hs ⊢
  rw [if_pos rfl] at hs ⊢
  cases hw : pp loc with
  | ret d =>
    rw [hw] at hs
    show (if d.success = true then [] else [placesUnavailableMsg loc]) ≠ []
    have hs' : d.success = false := by
      cases hsucc : d.success with
      | true =>
        have hfalse : pSuccess (some d) = false := hs
        rw [pSuccess] at hfalse
        rw [hsucc] at hfalse
        exact absurd hfalse (by simp)
      | false => rfl
    simp [hs']
  | exn e =>
    show [placesServiceErrorMsg e] ≠ []
    simp

theorem gatheredErrors_ne_nil (q : Str) (wp : Str → PyResult WeatherData)
    (pp : Str → PyResult PlacesData)
    (hw : wSuccess (weatherStep q (extract_city_from_query q) wp).1 = false)
    (hp : pSuccess (placesStep q (extract_city_from_query q) pp).1 = false) :
    gatheredErrors q wp pp ≠ [] := by
  intro hnil
  rw [gatheredErrors] at hnil
  obtain ⟨h1, h2⟩ := List.append_eq_nil.mp hnil
  cases hdw : dispatchWeather q with
  | true => exact weatherStep_failed_ne_nil q _ wp hdw hw h1
  | false =>
    have hdp : dispatchPlaces q = true := by
      revert hdw
      unfold dispatchWeather dispatchPlaces
      cases needsWeather q <;> cases needsPlaces q <;> simp
    exact placesStep_failed_ne_nil q _ pp hdp hp h2

theorem orchestrate_not_success (q : Str) (wp : Str → PyResult WeatherData)
    (pp : Str → PyResult PlacesData)
    (hw : wSuccess (weatherStep q (extract_city_from_query q) wp).1 = false)
    (hp : pSuccess (placesStep q (extract_city_from_query q) pp).1 = false) :
    orchestrate q wp pp =
      (match create_error_response q (extract_city_from_query q) (gatheredErrors q wp pp) with
       | .ret r =>
         { status := str "success", response := r,
           location := some (extract_city_from_query q),
           weather_called := some (weatherStep q (extract_city_from_query q) wp).1.isSome,
           places_called := some (placesStep q (extract_city_from_query q) pp).1.isSome }
       | .exn _ => { status := str "error", response := orchGenericError q }) := by
  unfold orchestrate gatheredErrors
  simp only [hw, hp, Bool.false_and, Bool.false_eq_true, if_false]

/-- C10: whenever the error branch of orchestrate_tourism_query is reached
(neither dispatched provider succeeded), the recorded failure-reason list is
non-empty, so the `errors[0]` access in create_error_response stays in bounds, it
returns normally, and the entry point does not fall into its exception
handler. -/
theorem c10_error_reason_in_bounds (q : Str) (wp : Str → PyResult WeatherData)
    (pp : Str → PyResult PlacesData)
    (hw : wSuccess (weatherStep q (extract_city_from_query q) wp).1 = false)
    (hp : pSuccess (placesStep q (extract_city_from_query q) pp).1 = false) :
    gatheredErrors q wp pp ≠ []
  ∧ (create_error_response q (extract_city_from_query q) (gatheredErrors q wp pp)).isRet = true
  ∧ (orchestrate q wp pp).status = str "success" := by
  have hne := gatheredErrors_ne_nil q wp pp hw hp
  obtain ⟨e0, rest, he⟩ := List.exists_cons_of_ne_nil hne
  have hret : ∃ r, create_error_response q (extract_city_from_query q)
      (gatheredErrors q wp pp) = .ret r := by
    rw [he]
    exact ⟨_, rfl⟩
  obtain ⟨r, hr⟩ := hret
  refine ⟨hne, by rw [hr]; rfl, ?_⟩
  rw [orchestrate_not_success q wp pp hw hp, hr]

/-- Witness for C10 on the query "weather in paris" with a failing weather
provider (the places provider is not dispatched). -/
theorem c10_error_reason_in_bounds_witness :
    gatheredErrors (str "weather in paris") wpFailEx ppFailEx ≠ []
  ∧ (create_error_response (str "weather in paris")
      (extract_city_from_query (str "weather in paris"))
      (gatheredErrors (str "weather in paris") wpFailEx ppFailEx)).isRet = true
  ∧ (orchestrate (str "weather in paris") wpFailEx ppFailEx).status = str "success" :=
  c10_error_reason_in_bounds (str "weather in paris") wpFailEx ppFailEx
    (by decide) (by decide)

theorem head_in_bullets (e0 : Str) (rest : List Str) : e0 <:+: bulletLines (e0 :: rest) := by
  refine ⟨str "• ",
    str "\n" ++ ((rest.take 1).map (fun e => str "• " ++ e ++ str "\n")).flatten, ?_⟩
  rw [bulletLines]
  simp [List.take_succ_cons, List.append_assoc]

/-- C1 (amended): when every dispatched provider call fails, the entry point
returns top-level status "success" (the error narrative travels in the
response field, not in the status), and — whenever the first recorded reason
does not mention "unknown location" — the response text contains the first
recorded failure reason verbatim. -/
theorem c1_both_failed_error_shape (q : Str) (wp : Str → PyResult WeatherData)
    (pp : Str → PyResult PlacesData)
    (hw : wSuccess (weatherStep q (extract_city_from_query q) wp).1 = false)
    (hp : pSuccess (placesStep q (extract_city_from_query q) pp).1 = false) :
    (orchestrate q wp pp).status = str "success"
  ∧ (∀ e0 rest, gatheredErrors q wp pp = e0 :: rest →
      strIn (str "unknown location") (pyLower e0) = false →
      e0 <:+: (orchestrate q wp pp).response) := by
  have hne := gatheredErrors_ne_nil q wp pp hw hp
  obtain ⟨f0, frest, hf⟩ := List.exists_cons_of_ne_nil hne
  constructor
  · have hret : ∃ r, create_error_response q (extract_city_from_query q)
        (gatheredErrors q wp pp) = .ret r := by
      rw [hf]
      exact ⟨_, rfl⟩
    obtain ⟨r, hr⟩ := hret
    rw [orchestrate_not_success q wp pp hw hp, hr]
  · intro e0 rest he hunk
    have hle : (extract_city_from_query q).isEmpty = false :=
      List.isEmpty_eq_false.mpr (extract_nonempty q)
    have hr : create_error_response q (extract_city_from_query q)
        (gatheredErrors q wp pp)
        = .ret (pyStrip (str "🚫 **Travel Assistant Error**\n\n"
            ++ ((str "I encountered technical issues while searching for "
                ++ extract_city_from_query q ++ str ":\n"
                ++ bulletLines (e0 :: rest) ++ str "\n")
            ++ str "Try again with a different city or check your internet connection!"))) := by
      rw [he]
      show PyResult.ret _ = _
      simp only [hunk, hle, Bool.or_self, Bool.false_eq_true, if_false]
    rw [orchestrate_not_success q wp pp hw hp, hr]
    show e0 <:+: pyStrip _
    rw [pyStrip_eq_self]
    · refine substr_context (head_in_bullets e0 rest)
        (str "🚫 **Travel Assistant Error**\n\n"
          ++ (str "I encountered technical issues while searching for "
              ++ extract_city_from_query q ++ str ":\n"))
        (str "\n"
          ++ str "Try again with a different city or check your internet connection!")
        ?_
      simp only [List.append_assoc]
    · rfl
    · exact endsOk_append _ _ (ne_nil_append_right _ (by decide))
        (endsOk_append _ _ (by decide) (by decide))

/-- Witness for C1 on "weather in paris" with a weather provider that fails
with a plain reason. -/
theorem c1_both_failed_error_shape_witness :
    (orchestrate (str "weather in paris") wpFailEx ppFailEx).status = str "success"
  ∧ str "Weather data unavailable for Paris"
      <:+: (orchestrate (str "weather in paris") wpFailEx ppFailEx).response := by
  have h := c1_both_failed_error_shape (str "weather in paris") wpFailEx ppFailEx
    (by decide) (by decide)
  exact ⟨h.1, h.2 (str "Weather data unavailable for Paris") [] (by decide) (by decide)⟩

/-- C1 counterexample: on "weather in paris" with the weather provider
raising a reason that mentions "unknown location" (places not dispatched),
the entry point returns status "success" — not "error" — and its response
text does not contain the single recorded failure reason; the claim fails on
both counts at this input. -/
theorem c1_status_counterexample :
    (orchestrate (str "weather in paris") wpUnkEx ppFailEx).status ≠ str "error"
  ∧ strIn (str "Weather service error: unknown location data")
      ((orchestrate (str "weather in paris") wpUnkEx ppFailEx).response) = false :=
  ⟨by decide, by decide⟩

/-- C9: for every payload the weather adapter produces, the weather-only
narrative renders Humidity as 0% and Wind as 0 km/h — the synthesizer reads
the keys `humidity` and `wind_speed`, which the adapter never writes (it
writes `windspeed`), so the `dict.get` defaults 0 always apply. -/
theorem c9_humidity_wind_zero (loc city : Str) (api : ApiWeather) :
    str "\n- Humidity: 0%" <:+: create_weather_response loc (weather_query_success city api)
  ∧ str "\n- Wind: 0 km/h" <:+: create_weather_response loc (weather_query_success city api) := by
  constructor
  · dsimp only [create_weather_response, weather_query_success]
    simp only [Option.getD_some, Option.getD_none]
    rw [pyStrip_newline]
    · refine substr_context
        (show str "\n- Humidity: 0%" <:+: (str "\n- Humidity: " ++ (showNum 0 ++ str "%"))
          by decide)
        (str "🌤️ **Weather Update for " ++ loc ++ str "**\n\n📍 **Location**: " ++ loc
          ++ str "\n\n🌡️ **Current Conditions**\n- Temperature: "
          ++ showNum (api.temperature.getD 0) ++ str "°C" ++ str "\n- Weather: "
          ++ str "Unknown")
        (str "\n- Wind: " ++ showNum 0 ++ str " km/h"
          ++ str "\n\n📅 **Today\x27s Forecast**\n- High: " ++ showOptNum api.temperature_2m_max0
          ++ str "°C\n- Low: " ++ showOptNum api.temperature_2m_min0
          ++ str "°C\n\n🎒 **Travel Tips**\n"
          ++ weatherTips { temperature := api.temperature, windspeed := api.windspeed,
                           weathercode := api.weathercode }
          ++ str "\nWould you like to know about top attractions in " ++ loc ++ str "?")
        ?_
      simp only [List.append_assoc]
    · rfl
    · exact endsOk_append _ _ (ne_nil_append_right _ (by decide))
        (endsOk_append _ _ (by decide) (by decide))
  · dsimp only [create_weather_response, weather_query_success]
    simp only [Option.getD_some, Option.getD_none]
    rw [pyStrip_newline]
    · refine substr_context
        (show str "\n- Wind: 0 km/h" <:+: (str "\n- Wind: " ++ (showNum 0 ++ str " km/h"))
          by decide)
        (str "🌤️ **Weather Update for " ++ loc ++ str "**\n\n📍 **Location**: " ++ loc
          ++ str "\n\n🌡️ **Current Conditions**\n- Temperature: "
          ++ showNum (api.temperature.getD 0) ++ str "°C" ++ str "\n- Weather: "
          ++ str "Unknown" ++ str "\n- Humidity: " ++ showNum 0 ++ str "%")
        (str "\n\n📅 **Today\x27s Forecast**\n- High: " ++ showOptNum api.temperature_2m_max0
          ++ str "°C\n- Low: " ++ showOptNum api.temperature_2m_min0
          ++ str "°C\n\n🎒 **Travel Tips**\n"
          ++ weatherTips { temperature := api.temperature, windspeed := api.windspeed,
                           weathercode := api.weathercode }
          ++ str "\nWould you like to know about top attractions in " ++ loc ++ str "?")
        ?_
      simp only [List.append_assoc]
    · rfl
    · exact endsOk_append _ _ (ne_nil_append_right _ (by decide))
        (endsOk_append _ _ (by decide) (by decide))

/-- C2 at the spec scenario (temperature 12.0, precipitation 0.4): the
adapter stores the precipitation under `today`, never under `current`, so the
narrative carries the cool-band tip but not the rain-contingency note. -/
theorem c2_rain_note_missing :
    ((weather_query_success (str "Paris") exApi).weather.getD {}).today.precipitation
      = some (2/5)
  ∧ (∀ city api,
      ((weather_query_success city api).weather.getD {}).current.precipitation = none)
  ∧ strIn coolTipsW
      (create_weather_response (str "Paris") (weather_query_success (str "Paris") exApi)) = true
  ∧ strIn rainTipW
      (create_weather_response (str "Paris") (weather_query_success (str "Paris") exApi)) = false :=
  ⟨rfl, fun _ _ => rfl, by decide, by decide⟩

/-- C3 at a resolvable location with an empty attraction list: places_query
raises KeyError (the fallback dict lacks the key `recommended`), so the
pipeline falls into the error branch and emits the technical-issues error
narrative; the generic cultural-activities fallback block never appears. -/
theorem c3_empty_list_keyerror :
    places_query (str "Paris") (some (48, 2)) (OverpassOut.atts []) (str "2025-01-01 00:00:00")
      = PyResult.exn (str "KeyError: recommended")
  ∧ (orchestrate (str "attractions in paris") wpFailEx ppKeyEx).status = str "success"
  ∧ strIn (str "I encountered technical issues")
      ((orchestrate (str "attractions in paris") wpFailEx ppKeyEx).response) = true
  ∧ strIn (str "Explore local markets and street food")
      ((orchestrate (str "attractions in paris") wpFailEx ppKeyEx).response) = false :=
  ⟨by decide, by decide, by decide, by decide⟩

end InkleTourism
